import Mathlib

/-!
# Market Analysis & Signal Lifecycle subsystem — shallow embedding

A shallow embedding of the signal subsystem of the `tradingbot` repository:

* `src/config/trading_params.py`   — `TradingParams` (class attributes, `validate`)
* `src/strategies/scalping_strategy.py` — `ScalpingStrategy` (`analyze`,
  `_generate_signal`, `_calculate_stops`, `validate_signal`)
* `src/strategies/indicators.py`   — `TechnicalIndicators`
  (`validate_data_quality`, `calculate_all` and the per-family helpers)
* `src/core/signal_generator.py`   — `SignalGenerator` (`_create_signal`,
  `_check_signal_status`, `_is_expired`, `_close_signal`,
  `monitor_active_signals`)

Conventions of the embedding:

* Python floats are embedded as exact rationals (`ℚ`); decimal literals such
  as `0.05` elaborate to the exact decimal rational.  `round(x, n)` is
  embedded as exact round-half-even on the decimal value (`roundTo`).
* `datetime` values are embedded as rational timestamps in seconds; elapsed
  time is plain subtraction, matching `total_seconds()`.
* Python dictionaries keyed by strings are embedded as association lists.
* A pandas `DataFrame` holding a candle window is embedded as the list of its
  OHLCV rows (`Candle`) together with an optional block of indicator columns
  (`Inds`): the block is `none` when the indicator columns are absent (the
  shape produced by `SignalGenerator._klines_to_dataframe`) and `some` when
  they are present.  A `NaN` cell is not representable in this embedding; the
  source comments below note the (dead or degenerate) places where pandas
  would produce `NaN`/`inf` and how the embedding renders them.
* Indicator families that the source delegates to the third-party `ta`
  library (EMA, RSI, Bollinger, ATR) are modelled from the spec, as noted on
  each definition; the families written out in `src/strategies/indicators.py`
  itself (VWAP, volume analysis, true range, price action) are translated
  from that source.
-/

namespace TradingBot

/-! ## Rounding

Python's built-in `round(x, n)` rounds half to even.  `rnd` is round-half-even
to an integer, `roundTo p` is `round(·, p)` on exact decimal values. -/

/-- Round half to even (banker's rounding), as Python's `round`. -/
def rnd (x : ℚ) : ℤ :=
  if Int.fract x < 1/2 then ⌊x⌋
  else if 1/2 < Int.fract x then ⌊x⌋ + 1
  else if ⌊x⌋ % 2 = 0 then ⌊x⌋ else ⌊x⌋ + 1

/-- Python `round(x, p)`. -/
def roundTo (p : ℕ) (x : ℚ) : ℚ := (rnd ((10 ^ p : ℚ) * x) : ℚ) / (10 ^ p : ℚ)

/-- `round(x, 2)`, the rounding applied to prices. -/
def round2 (x : ℚ) : ℚ := roundTo 2 x

/-! ## Configuration — `src/config/trading_params.py`

Only the attributes that the embedded subsystem reads are carried.
`WEIGHTS` is a Python dict; it is carried as an association list so that
`TradingParams.validate` can be stated over arbitrary weight sets.
Source names are kept except `MIN_VOLUME_RATIO`, carried here as
`MIN_VOLUME_FACTOR` (and the `volume_ratio` column as `volume_factor`). -/

structure Params where
  SYMBOLS : List String
  TIMEFRAME : String
  EMA_FAST : ℕ
  EMA_SLOW : ℕ
  RSI_PERIOD : ℕ
  RSI_OVERBOUGHT : ℚ
  RSI_OVERSOLD : ℚ
  BOLLINGER_PERIOD : ℕ
  BOLLINGER_STD : ℚ
  ATR_PERIOD : ℕ
  STOP_LOSS_MULTIPLIER : ℚ
  TAKE_PROFIT_MULTIPLIER : ℚ
  MIN_CONFIDENCE : ℚ
  MIN_VOLUME_FACTOR : ℚ
  MIN_VOLATILITY : ℚ
  SIGNAL_COOLDOWN_MINUTES : ℚ
  MAX_ACTIVE_SIGNALS : ℕ
  MAX_SIGNALS_PER_SYMBOL : ℕ
  MAX_SIGNAL_LIFETIME_HOURS : ℚ
  WEIGHTS : List (String × ℚ)
  deriving DecidableEq, Repr

/-- The shipped configuration (the class attributes of `TradingParams`). -/
def shippedParams : Params where
  SYMBOLS := ["BTCUSDT", "ETHUSDT", "SOLUSDT", "BNBUSDT"]
  TIMEFRAME := "1m"
  EMA_FAST := 9
  EMA_SLOW := 21
  RSI_PERIOD := 14
  RSI_OVERBOUGHT := 70
  RSI_OVERSOLD := 30
  BOLLINGER_PERIOD := 20
  BOLLINGER_STD := 2
  ATR_PERIOD := 14
  STOP_LOSS_MULTIPLIER := 2.0
  TAKE_PROFIT_MULTIPLIER := 3.0
  MIN_CONFIDENCE := 0.50
  MIN_VOLUME_FACTOR := 1.5
  MIN_VOLATILITY := 0.02
  SIGNAL_COOLDOWN_MINUTES := 5
  MAX_ACTIVE_SIGNALS := 10
  MAX_SIGNALS_PER_SYMBOL := 2
  MAX_SIGNAL_LIFETIME_HOURS := 24
  WEIGHTS :=
    [("ema_trend", 0.25), ("rsi_momentum", 0.20), ("bollinger", 0.15),
     ("vwap", 0.15), ("volume", 0.15), ("price_action", 0.10)]

/-- `weights['k']` — dict access on `WEIGHTS`.  A missing key raises `KeyError`
in Python; the embedding defaults to `0` (the shipped set has all six keys). -/
def wget (p : Params) (k : String) : ℚ := (p.WEIGHTS.lookup k).getD 0

/-- `sum(cls.WEIGHTS.values())`. -/
def weightsTotal (p : Params) : ℚ := (p.WEIGHTS.map Prod.snd).sum

/-- `TradingParams.validate` (`src/config/trading_params.py`, lines 174-211).
Raised `ValueError` messages are abridged to short tags; the check order is
the source's. -/
def Params.validate (p : Params) : Except String Bool :=
  if |weightsTotal p - 1.0| > 0.01 then
    Except.error "weights must sum to 1.0"
  else if ¬ (0.0 ≤ p.MIN_CONFIDENCE ∧ p.MIN_CONFIDENCE ≤ 1.0) then
    Except.error "MIN_CONFIDENCE out of range"
  else if ¬ (["1m", "3m", "5m", "15m", "30m", "1h", "2h", "4h",
              "6h", "12h", "1d"].contains p.TIMEFRAME) then
    Except.error "invalid TIMEFRAME"
  else if p.SYMBOLS.isEmpty then
    Except.error "at least 1 symbol required"
  else
    Except.ok true

/-! ## Data model -/

/-- One OHLCV row of the candle window (`open` is `opn`: `open` is reserved). -/
structure Candle where
  opn : ℚ
  high : ℚ
  low : ℚ
  close : ℚ
  volume : ℚ
  deriving DecidableEq, Repr

/-- The indicator columns added by `TechnicalIndicators.calculate_all`
(one row).  `volume_factor` is the source's `volume_ratio` column. -/
structure Inds where
  ema_fast : ℚ
  ema_slow : ℚ
  rsi : ℚ
  bb_upper : ℚ
  bb_middle : ℚ
  bb_lower : ℚ
  bb_width : ℚ
  vwap : ℚ
  volume_ma : ℚ
  volume_factor : ℚ
  tr : ℚ
  atr : ℚ
  price_change : ℚ
  price_change_ma : ℚ
  momentum : ℚ
  deriving DecidableEq, Repr, Inhabited

/-- A candle window as `ScalpingStrategy.analyze` receives it: the OHLCV
columns, plus the indicator columns when present. -/
structure DF where
  candles : List Candle
  indicators : Option (List Inds)
  deriving DecidableEq, Repr

/-- One row of an indicator-augmented window (`df.iloc[i]`). -/
structure Snap where
  candle : Candle
  inds : Inds
  deriving DecidableEq, Repr

/-- A Signal record as built by `SignalGenerator._create_signal`.  The closing
fields are `Option`s: the Python dict gains those keys only at closure.
Timestamps are rational seconds. -/
structure Signal where
  signal_id : String
  symbol : String
  type : String
  price : ℚ
  confidence : ℚ
  stop_loss : ℚ
  take_profit : ℚ
  atr : ℚ
  risk_reward : ℚ
  timestamp : ℚ
  status : String
  created_at : ℚ
  close_price : Option ℚ := none
  close_time : Option ℚ := none
  pnl_percent : Option ℚ := none
  duration_minutes : Option ℚ := none
  deriving DecidableEq, Repr

/-- The dict returned by `ScalpingStrategy._calculate_stops`. -/
structure Stops where
  entry_price : ℚ
  stop_loss : ℚ
  take_profit : ℚ
  atr : ℚ
  risk_reward : ℚ
  deriving DecidableEq, Repr

/-! ## Scoring — `ScalpingStrategy._generate_signal`
(`src/strategies/scalping_strategy.py`, lines 97-292)

The six weighted components are factored into one definition per component,
each returning the pair (amount added to `buy_score`, amount added to
`sell_score`); the source accumulates the same amounts in the same order into
two mutable accumulators.  `l` is `df.iloc[-1]` (`latest`), `pr` is
`df.iloc[-2]` (`prev`). -/

/-- Component 1 — EMA trend (lines 124-148), including the ±0.05
golden-cross / death-cross bonus. -/
def stage1 (p : Params) (l pr : Snap) : ℚ × ℚ :=
  if l.inds.ema_fast > l.inds.ema_slow then
    (wget p "ema_trend" + (if pr.inds.ema_fast ≤ pr.inds.ema_slow then 0.05 else 0), 0)
  else if l.inds.ema_fast < l.inds.ema_slow then
    (0, wget p "ema_trend" + (if pr.inds.ema_fast ≥ pr.inds.ema_slow then 0.05 else 0))
  else (0, 0)

/-- Component 2 — RSI momentum (lines 151-176). -/
def stage2 (p : Params) (l : Snap) : ℚ × ℚ :=
  if l.inds.rsi < p.RSI_OVERSOLD then (wget p "rsi_momentum", 0)
  else if l.inds.rsi > p.RSI_OVERBOUGHT then (0, wget p "rsi_momentum")
  else if 40 < l.inds.rsi ∧ l.inds.rsi < 60 then (0, 0)
  else if l.inds.rsi < 50 then (wget p "rsi_momentum" * 0.5, 0)
  else (0, wget p "rsi_momentum" * 0.5)

/-- Component 3 — Bollinger bands (lines 179-201), only when the band width
exceeds the minimum volatility. -/
def stage3 (p : Params) (l : Snap) : ℚ × ℚ :=
  if l.inds.bb_width > p.MIN_VOLATILITY then
    if l.candle.close ≤ l.inds.bb_lower then (wget p "bollinger", 0)
    else if l.candle.close ≥ l.inds.bb_upper then (0, wget p "bollinger")
    else (0, 0)
  else (0, 0)

/-- Component 4 — VWAP (lines 204-227): fresh cross full weight, persistent
±0.1% deviation half weight. -/
def stage4 (p : Params) (l pr : Snap) : ℚ × ℚ :=
  if l.candle.close > l.inds.vwap ∧ pr.candle.close ≤ pr.inds.vwap then
    (wget p "vwap", 0)
  else if l.candle.close < l.inds.vwap ∧ pr.candle.close ≥ pr.inds.vwap then
    (0, wget p "vwap")
  else if l.candle.close > l.inds.vwap * 1.001 then (wget p "vwap" * 0.5, 0)
  else if l.candle.close < l.inds.vwap * 0.999 then (0, wget p "vwap" * 0.5)
  else (0, 0)

/-- Component 5 — volume confirmation (lines 230-243): reinforces whichever
side leads after components 1-4 (`b` and `s` are those partial scores). -/
def stage5 (p : Params) (l : Snap) (b s : ℚ) : ℚ × ℚ :=
  if l.inds.volume_factor > p.MIN_VOLUME_FACTOR then
    if b > s then (wget p "volume", 0)
    else if s > b then (0, wget p "volume")
    else (0, 0)
  else (0, 0)

/-- Component 6 — price action (lines 246-259). -/
def stage6 (p : Params) (l : Snap) : ℚ × ℚ :=
  if l.inds.price_change > 0.002 then (wget p "price_action", 0)
  else if l.inds.price_change < -0.002 then (0, wget p "price_action")
  else (0, 0)

/-- `buy_score` and `sell_score` after components 1-4 (what component 5
compares). -/
def scores4 (p : Params) (l pr : Snap) : ℚ × ℚ :=
  ((stage1 p l pr).1 + (stage2 p l).1 + (stage3 p l).1 + (stage4 p l pr).1,
   (stage1 p l pr).2 + (stage2 p l).2 + (stage3 p l).2 + (stage4 p l pr).2)

/-- Final `buy_score` (line 118 onward). -/
def buyScore (p : Params) (l pr : Snap) : ℚ :=
  (scores4 p l pr).1
    + (stage5 p l (scores4 p l pr).1 (scores4 p l pr).2).1 + (stage6 p l).1

/-- Final `sell_score`. -/
def sellScore (p : Params) (l pr : Snap) : ℚ :=
  (scores4 p l pr).2
    + (stage5 p l (scores4 p l pr).1 (scores4 p l pr).2).2 + (stage6 p l).2

/-- `ScalpingStrategy._generate_signal` — the final decision (lines 262-292):
confidence is `max(buy_score, sell_score)`; below the minimum confidence, or
on an exact tie, the result is `HOLD`. -/
def generateSignal (p : Params) (l pr : Snap) : String × ℚ :=
  let bs := buyScore p l pr
  let ss := sellScore p l pr
  let confidence := max bs ss
  if confidence < p.MIN_CONFIDENCE then ("HOLD", confidence)
  else if bs > ss then ("BUY", bs)
  else if ss > bs then ("SELL", ss)
  else ("HOLD", confidence)

/-! ## Protective levels — `ScalpingStrategy._calculate_stops`
(`src/strategies/scalping_strategy.py`, lines 295-353) -/

/-- `_calculate_stops`: ATR-scaled stop distances around the latest close,
every output rounded to 2 decimals. -/
def calculateStops (p : Params) (l : Snap) (signal_type : String) : Stops :=
  let entry_price := l.candle.close
  let atr := l.inds.atr
  let stop_distance := atr * p.STOP_LOSS_MULTIPLIER
  let profit_distance := atr * p.TAKE_PROFIT_MULTIPLIER
  let stop_loss := if signal_type == "BUY" then entry_price - stop_distance
                   else entry_price + stop_distance
  let take_profit := if signal_type == "BUY" then entry_price + profit_distance
                     else entry_price - profit_distance
  let risk := |entry_price - stop_loss|
  let reward := |take_profit - entry_price|
  let risk_reward := if risk > 0 then reward / risk else 0
  { entry_price := round2 entry_price
    stop_loss := round2 stop_loss
    take_profit := round2 take_profit
    atr := round2 atr
    risk_reward := round2 risk_reward }

/-! ## Cooldown — `ScalpingStrategy.validate_signal`
(`src/strategies/scalping_strategy.py`, lines 407-450)

`self.last_signals` is a dict from `f"{symbol}_{signal_type}"` to the time of
the last passing call; it is carried as an association list.  `now` stands for
`datetime.now()` (the source reads the clock again when storing the passing
time; the two reads of one call are identified). -/

/-- Overwriting insert into the `last_signals` association list. -/
def setKey (k : String) (v : ℚ) (st : List (String × ℚ)) : List (String × ℚ) :=
  (k, v) :: st.filter (fun e => e.1 != k)

/-- `validate_signal`: returns whether the signal may be emitted, and the
updated `last_signals` state.  `cooldownArg` is the optional
`cooldown_minutes` argument (`none` selects the configured value). -/
def validateSignal (p : Params) (st : List (String × ℚ)) (symbol signal_type : String)
    (now : ℚ) (cooldownArg : Option ℚ := none) : Bool × List (String × ℚ) :=
  let cooldown_minutes := cooldownArg.getD p.SIGNAL_COOLDOWN_MINUTES
  let key := symbol ++ "_" ++ signal_type
  match st.lookup key with
  | none => (true, setKey key now st)
  | some last_time =>
      if now - last_time > cooldown_minutes * 60 then (true, setKey key now st)
      else (false, st)

/-! ## Signal lifecycle — `src/core/signal_generator.py` -/

/-- `SignalGenerator._create_signal` (lines 155-186).  `ts` is the creation
time in seconds; `int(timestamp.timestamp())` is its floor (timestamps are
nonnegative). -/
def createSignal (symbol signal_type : String) (confidence : ℚ) (stops : Stops)
    (ts : ℚ) : Signal :=
  { signal_id := symbol ++ "_" ++ toString ⌊ts⌋
    symbol := symbol
    type := signal_type
    price := stops.entry_price
    confidence := roundTo 3 confidence
    stop_loss := stops.stop_loss
    take_profit := stops.take_profit
    atr := stops.atr
    risk_reward := stops.risk_reward
    timestamp := ts
    status := "ACTIVE"
    created_at := ts }

/-- `SignalGenerator._check_signal_status` (lines 246-279): the stop-loss
comparison is evaluated before the take-profit comparison, for both
directions; any `type` other than `'BUY'` takes the SELL branch. -/
def checkSignalStatus (s : Signal) (current_price : ℚ) : String :=
  if s.type == "BUY" then
    if current_price ≤ s.stop_loss then "STOP_LOSS"
    else if current_price ≥ s.take_profit then "TAKE_PROFIT"
    else "ACTIVE"
  else
    if current_price ≥ s.stop_loss then "STOP_LOSS"
    else if current_price ≤ s.take_profit then "TAKE_PROFIT"
    else "ACTIVE"

/-- `SignalGenerator._is_expired` (lines 282-296): strictly more than
`MAX_SIGNAL_LIFETIME_HOURS` hours since creation. -/
def isExpired (p : Params) (s : Signal) (now : ℚ) : Bool :=
  (now - s.created_at) / 3600 > p.MAX_SIGNAL_LIFETIME_HOURS

/-- `SignalGenerator._close_signal` (lines 299-350): records close price,
close time and status, and computes `pnl_percent` (2 decimals) and
`duration_minutes` (1 decimal).  The persistence writes and the removal from
the open set are carried by `monitorPass` below. -/
def closeSignal (s : Signal) (close_price : ℚ) (status : String) (now : ℚ) : Signal :=
  { s with
    close_price := some close_price
    close_time := some now
    status := status
    pnl_percent := some (round2
      (if s.type == "BUY" then (close_price - s.price) / s.price * 100
       else (s.price - close_price) / s.price * 100))
    duration_minutes := some (roundTo 1 ((now - s.created_at) / 60)) }

/-- The body of the `monitor_active_signals` loop for one signal whose current
price is available (lines 220-235): close on stop/target, else close on
expiry, else leave open (`none`). -/
def monitorOne (p : Params) (s : Signal) (current_price : ℚ) (now : ℚ) :
    Option Signal :=
  let status := checkSignalStatus s current_price
  if status == "STOP_LOSS" || status == "TAKE_PROFIT" then
    some (closeSignal s current_price status now)
  else if isExpired p s now then
    some (closeSignal s current_price "EXPIRED" now)
  else none

/-- `SignalGenerator.monitor_active_signals` (lines 189-243) over one pass:
`price` is `binance.get_current_price` (a signal whose price is unavailable is
skipped and stays open); returns (signals closed this pass, in iteration
order) and (signals still open, in insertion order — the source deletes closed
ids from the `active_signals` dict). -/
def monitorPass (p : Params) (sigs : List Signal) (price : String → Option ℚ)
    (now : ℚ) : List Signal × List Signal :=
  (sigs.filterMap fun s => (price s.symbol).bind fun cp => monitorOne p s cp now,
   sigs.filter fun s =>
     match price s.symbol with
     | none => true
     | some cp => (monitorOne p s cp now).isNone)

/-! ## Indicator engine — `src/strategies/indicators.py`

Helpers over columns (lists of rationals).  `ewm α` is pandas
`Series.ewm(alpha=α, adjust=False, min_periods=0).mean()`: `y₀ = x₀`,
`yₜ = yₜ₋₁ + α (xₜ − yₜ₋₁)` — the recursion used (through the `ta` library)
by the EMA, RSI and ATR families. -/

/-- Tail of the exponentially weighted recursion, carrying the running
value `y`. -/
def ewmGo (α : ℚ) (y : ℚ) : List ℚ → List ℚ
  | [] => []
  | x :: xs => (y + α * (x - y)) :: ewmGo α (y + α * (x - y)) xs

/-- `ewm(alpha=α, adjust=False).mean()` seeded at the first element. -/
def ewm (α : ℚ) : List ℚ → List ℚ
  | [] => []
  | x :: xs => x :: ewmGo α x xs

/-- The window of the last `w` values ending at index `i`
(`rolling(window=w, min_periods=1)` window contents). -/
def rollWindow (w : ℕ) (l : List ℚ) (i : ℕ) : List ℚ :=
  (l.drop (i + 1 - w)).take (i + 1 - (i + 1 - w))

/-- Mean of a column segment (`0` on the empty segment, which never occurs
with `min_periods=1`). -/
def colMean (seg : List ℚ) : ℚ := seg.sum / (seg.length : ℚ)

/-- `rolling(window=w, min_periods=1).mean()`. -/
def rollingMean (w : ℕ) (l : List ℚ) : List ℚ :=
  (List.range l.length).map fun i => colMean (rollWindow w l i)

/-- Population variance of a column segment (`rolling.std(ddof=0)` squared,
the convention of the `ta` Bollinger implementation). -/
def colVarP (seg : List ℚ) : ℚ :=
  (seg.map fun x => (x - colMean seg) ^ 2).sum / (seg.length : ℚ)

/-- Exact square root on ℚ: correct whenever the argument is the square of a
rational (as in every window this file evaluates; the flat Bollinger windows
used below all have variance 0), `0` on negatives.  A kernel-computable
surrogate for the library's floating-point square root. -/
def qsqrt (q : ℚ) : ℚ :=
  if q ≤ 0 then 0 else (Nat.sqrt q.num.toNat : ℚ) / (Nat.sqrt q.den : ℚ)

/-- Running cumulative sums (`Series.cumsum()`). -/
def cumsum (l : List ℚ) : List ℚ :=
  (List.range l.length).map fun i => ((l.take (i + 1)).sum)

/-- `df['close'].diff(1)`, with the leading undefined entry as `0` — the
value the RSI computation assigns it through `where` (a `NaN` comparison is
false). -/
def diff1 (l : List ℚ) : List ℚ :=
  match l with
  | [] => []
  | _ :: t => 0 :: List.zipWith (fun b a => b - a) t l

/-- Column access with the `0` default (every access below is in range). -/
def colGet (l : List ℚ) (i : ℕ) : ℚ := l.getD i 0

/-- `_calculate_emas` — Modelled from the spec: "fast/slow trend averages:
exponential smoothing with configured look-back windows", the smoothing the
source obtains from `ta.trend.EMAIndicator(close, window, fillna=True)`
(`alpha = 2/(window+1)`, defined from the first row on). -/
def emaCol (window : ℕ) (closes : List ℚ) : List ℚ :=
  ewm (2 / ((window : ℚ) + 1)) closes

/-- `_calculate_rsi` — Modelled from the spec: "standard relative-strength
computation over a configured period, bounded to [0,100], with missing
leading values filled at the neutral midpoint convention" — Wilder smoothing
(`alpha = 1/period`) of gains and losses as in `ta.momentum.RSIIndicator`;
`100·u/(u+d)` equals `100 − 100/(1+u/d)` when `d ≠ 0` and renders the
`d = 0, u > 0` limit as 100; the degenerate `0/0` point (constant leading
prices) takes the neutral fill 50. -/
def rsiCol (period : ℕ) (closes : List ℚ) : List ℚ :=
  let d := diff1 closes
  let ups := ewm (1 / (period : ℚ)) (d.map fun x => max x 0)
  let downs := ewm (1 / (period : ℚ)) (d.map fun x => max (-x) 0)
  (List.range closes.length).map fun i =>
    let u := colGet ups i
    let dn := colGet downs i
    if u + dn = 0 then 50 else 100 * u / (u + dn)

/-- `_calculate_bollinger_bands` — Modelled from the spec: "a centered moving
average ± k standard deviations over a configured window; width =
(upper − lower) / middle" (`ta.volatility.BollingerBands`, population
standard deviation, rolling mean over the configured window; the undefined
leading rows are taken over the available prefix — they are never read, the
strategy only reads the last row).  `width` at a zero middle band is
non-finite in the source and rendered `0` here (impossible for positive
prices).  Returns (upper, middle, lower, width) columns. -/
def bollingerCols (window : ℕ) (k : ℚ) (closes : List ℚ) :
    List ℚ × List ℚ × List ℚ × List ℚ :=
  let middle := rollingMean window closes
  let sd := (List.range closes.length).map fun i =>
    qsqrt (colVarP (rollWindow window closes i))
  let upper := List.zipWith (· + ·) middle (sd.map (k * ·))
  let lower := List.zipWith (· - ·) middle (sd.map (k * ·))
  let width := (List.range closes.length).map fun i =>
    if colGet middle i = 0 then 0
    else (colGet upper i - colGet lower i) / colGet middle i
  (upper, middle, lower, width)

/-- `_calculate_vwap` (`src/strategies/indicators.py`, lines 214-242):
cumulative (typical price × volume) over cumulative volume, typical price =
(high + low + close)/3.  A zero cumulative volume gives a non-finite value in
the source and is rendered `0` here (impossible for positive volumes). -/
def vwapCol (highs lows closes volumes : List ℚ) : List ℚ :=
  let typical := List.zipWith (fun hl c => (hl.1 + hl.2 + c) / 3)
    (List.zipWith Prod.mk highs lows) closes
  let num := cumsum (List.zipWith (· * ·) typical volumes)
  let den := cumsum volumes
  (List.range closes.length).map fun i =>
    if colGet den i = 0 then 0 else colGet num i / colGet den i

/-- `_calculate_volume_analysis` (lines 245-277): 20-period rolling mean of
volume (`min_periods=1`) and the current/average quotient, with `NaN` and
`±inf` replaced by `1.0` — both arise exactly when the rolling mean is zero.
Returns (volume_ma, volume_factor); `volume_factor` is the source's
`volume_ratio`. -/
def volumeCols (volumes : List ℚ) : List ℚ × List ℚ :=
  let ma := rollingMean 20 volumes
  (ma, (List.range volumes.length).map fun i =>
    if colGet ma i = 0 then 1 else colGet volumes i / colGet ma i)

/-- `_calculate_atr`, true-range column (lines 296-307):
`max(high − low, |high − prevClose|, |low − prevClose|)`.  At row 0 the
source's shifted close is `NaN` (propagated, never read downstream); the
embedding takes `high − low` there so that the modelled ATR below can seed on
it. -/
def trCol (highs lows closes : List ℚ) : List ℚ :=
  (List.range closes.length).map fun i =>
    if i = 0 then colGet highs 0 - colGet lows 0
    else max (colGet highs i - colGet lows i)
      (max |colGet highs i - colGet closes (i - 1)|
           |colGet lows i - colGet closes (i - 1)|)

/-- `_calculate_atr`, ATR column — Modelled from the spec: "ATR is a smoothed
moving average of true range over a configured period"
(`ta.volatility.AverageTrueRange`: Wilder smoothing, `alpha = 1/period`). -/
def atrCol (period : ℕ) (highs lows closes : List ℚ) : List ℚ :=
  ewm (1 / (period : ℚ)) (trCol highs lows closes)

/-- `_calculate_price_action` (lines 327-363): single-step percentage change
(leading `NaN` filled with 0; a zero previous close is non-finite in the
source and rendered 0 here — impossible for positive prices), its 5-period
rolling mean, and the 4-step momentum difference (leading `NaN`s filled with
0).  Returns (price_change, price_change_ma, momentum). -/
def priceActionCols (closes : List ℚ) : List ℚ × List ℚ × List ℚ :=
  let pc := (List.range closes.length).map fun i =>
    if i = 0 then 0
    else if colGet closes (i - 1) = 0 then 0
    else (colGet closes i - colGet closes (i - 1)) / colGet closes (i - 1)
  let mom := (List.range closes.length).map fun i =>
    if i < 4 then 0 else colGet closes i - colGet closes (i - 4)
  (pc, rollingMean 5 pc, mom)

/-- `TechnicalIndicators.calculate_all` (lines 41-95): `None` on an empty or
missing frame, otherwise the indicator columns computed over the window.  (A
frame lacking one of the OHLCV columns — the other `None` case of the source —
is not representable here: `Candle` always carries the five fields.) -/
def calculateAll (p : Params) (candles : List Candle) : Option (List Inds) :=
  if candles.isEmpty then none
  else
    let closes := candles.map Candle.close
    let highs := candles.map Candle.high
    let lows := candles.map Candle.low
    let volumes := candles.map Candle.volume
    let ef := emaCol p.EMA_FAST closes
    let es := emaCol p.EMA_SLOW closes
    let rs := rsiCol p.RSI_PERIOD closes
    let bb := bollingerCols p.BOLLINGER_PERIOD p.BOLLINGER_STD closes
    let vw := vwapCol highs lows closes volumes
    let vol := volumeCols volumes
    let tr := trCol highs lows closes
    let atr := atrCol p.ATR_PERIOD highs lows closes
    let pa := priceActionCols closes
    some ((List.range candles.length).map fun i =>
      { ema_fast := colGet ef i
        ema_slow := colGet es i
        rsi := colGet rs i
        bb_upper := colGet bb.1 i
        bb_middle := colGet bb.2.1 i
        bb_lower := colGet bb.2.2.1 i
        bb_width := colGet bb.2.2.2 i
        vwap := colGet vw i
        volume_ma := colGet vol.1 i
        volume_factor := colGet vol.2 i
        tr := colGet tr i
        atr := colGet atr i
        price_change := colGet pa.1 i
        price_change_ma := colGet pa.2.1 i
        momentum := colGet pa.2.2 i })

/-- `TechnicalIndicators.validate_data_quality` (lines 457-489): false on an
empty frame, false when a required indicator column is missing, false when the
last row holds a `NaN` in one of them.  In this embedding the required columns
are present exactly when the indicator block is, and `NaN` cells are not
representable (see the module comment). -/
def validateDataQuality (df : DF) : Bool :=
  if df.candles.length = 0 then false else df.indicators.isSome

/-! ## `ScalpingStrategy.analyze`
(`src/strategies/scalping_strategy.py`, lines 49-94) -/

/-- `df.iloc[i]` on an indicator-augmented window (in-range everywhere it is
used: `analyze` requires at least 50 rows). -/
def snapAt (candles : List Candle) (inds : List Inds) (i : ℕ) : Snap :=
  { candle := candles.getD i ⟨0, 0, 0, 0, 0⟩, inds := inds.getD i default }

/-- The scoring-and-stops tail of `analyze` (lines 84-94), applied once the
window has passed (or been repaired past) the data-quality gate. -/
def scoreAndStops (p : Params) (candles : List Candle) (inds : List Inds) :
    String × ℚ × Option Stops :=
  let latest := snapAt candles inds (candles.length - 1)
  let prev := snapAt candles inds (candles.length - 2)
  let r := generateSignal p latest prev
  if r.1 == "HOLD" then (r.1, r.2, none)
  else (r.1, r.2, some (calculateStops p latest r.1))

/-- `ScalpingStrategy.analyze`: `HOLD/0.0/None` on a missing window or fewer
than 50 candles; a window that fails the data-quality gate is recomputed with
`calculate_all` (and only a failed recomputation yields `HOLD`); the surviving
window is scored, and stops are attached when the decision is not `HOLD`.
The strategy holds the shipped configuration (`ScalpingStrategy.__init__`). -/
def analyze (df : Option DF) : String × ℚ × Option Stops :=
  match df with
  | none => ("HOLD", 0.0, none)
  | some df =>
    if df.candles.length < 50 then ("HOLD", 0.0, none)
    else
      let repaired : Option (List Inds) :=
        if validateDataQuality df then df.indicators
        else calculateAll shippedParams df.candles
      match repaired with
      | none => ("HOLD", 0.0, none)
      | some inds => scoreAndStops shippedParams df.candles inds

/-! ## Concrete windows and signals used to settle the claims -/

/-- Builder for an indicator row from the fields the strategy reads (the
unread fields are zeroed). -/
def indsRow (ef es rsi bbu bbl bbw vw vf pc atr : ℚ) : Inds where
  ema_fast := ef
  ema_slow := es
  rsi := rsi
  bb_upper := bbu
  bb_middle := 0
  bb_lower := bbl
  bb_width := bbw
  vwap := vw
  volume_ma := 0
  volume_factor := vf
  tr := 0
  atr := atr
  price_change := pc
  price_change_ma := 0
  momentum := 0

/-- A latest row on which all six components score for BUY (EMA fast above
slow after a cross, oversold RSI, close on the lower band in a volatile
market, a fresh VWAP upcross, high volume, strong upward momentum). -/
def allBuyLatest : Snap where
  candle := ⟨100, 100, 100, 100, 10⟩
  inds := indsRow 101 (100.5) 25 105 100 (0.05) 99 2 (0.003) 1

/-- The previous row matching `allBuyLatest` (fast was at/below slow, close
was at/below VWAP). -/
def allBuyPrev : Snap where
  candle := ⟨98, 98, 98, 98, 10⟩
  inds := indsRow 100 100 50 0 0 0 99 1 0 1

/-- As `allBuyLatest` but with an ATR of 0.001: small enough that the
two-decimal rounding collapses both protective levels onto the entry. -/
def tinyAtrLatest : Snap where
  candle := ⟨100, 100, 100, 100, 10⟩
  inds := indsRow 101 (100.5) 25 105 100 (0.05) 99 2 (0.003) (0.001)

/-- A 50-row window with indicator columns already present (passing the
data-quality gate), whose last two rows are `tinyAtrLatest` / `allBuyPrev`. -/
def tinyAtrDF : DF where
  candles := List.replicate 48 ⟨98, 98, 98, 98, 10⟩ ++
    [allBuyPrev.candle, tinyAtrLatest.candle]
  indicators := some (List.replicate 48 allBuyPrev.inds ++
    [allBuyPrev.inds, tinyAtrLatest.inds])

/-- The stops `analyze` attaches on `tinyAtrDF`: all three price levels
round to the entry price. -/
def tinyAtrStops : Stops where
  entry_price := 100
  stop_loss := 100
  take_profit := 100
  atr := 0
  risk_reward := 1.5

/-- A raw 50-candle OHLCV window (no indicator columns — the shape the
production pipeline feeds `analyze`): a staircase rise 80 → 90 → 95 → 100
with inflated early highs (volume-weighted typical prices above the final
close), then a flat tail, and a final candle with a deep low on a large
volume.  On it the recomputed indicators score BUY at confidence 0.55. -/
def rawCandles : List Candle :=
  List.replicate 10 ⟨80, 150, 80, 80, 10⟩ ++
  List.replicate 10 ⟨90, 160, 90, 90, 10⟩ ++
  List.replicate 10 ⟨95, 165, 95, 95, 10⟩ ++
  List.replicate 19 ⟨100, 100, 100, 100, 10⟩ ++
  [⟨100, 100, 40, 100, 1000⟩]

/-- `rawCandles` as the frame `analyze` receives: the indicator columns are
absent, so the data-quality gate fails. -/
def rawDF : DF where
  candles := rawCandles
  indicators := none

/-- Latest and previous rows producing an exact 0.40/0.40 buy/sell tie:
golden-crossed EMAs and a mildly bearish RSI for buy (0.30 + 0.10), upper-band
touch, fresh VWAP downcross and falling momentum for sell
(0.15 + 0.15 + 0.10), no volume confirmation. -/
def tieLatest : Snap where
  candle := ⟨100, 100, 100, 100, 10⟩
  inds := indsRow 101 100 35 95 90 (0.05) 101 1 (-0.003) 1

/-- The previous row matching `tieLatest`. -/
def tiePrev : Snap where
  candle := ⟨100, 100, 100, 100, 10⟩
  inds := indsRow 100 100 50 0 0 0 99 1 0 1

/-- A BUY signal with entry 100 (stops at 98/103) for the P&L examples. -/
def sigBuy100 : Signal where
  signal_id := "BTCUSDT_0"
  symbol := "BTCUSDT"
  type := "BUY"
  price := 100
  confidence := 0.6
  stop_loss := 98
  take_profit := 103
  atr := 1
  risk_reward := 1.5
  timestamp := 0
  status := "ACTIVE"
  created_at := 0

/-- A SELL signal with entry 100 (stops at 102/97) for the P&L examples. -/
def sigSell100 : Signal where
  signal_id := "BTCUSDT_0"
  symbol := "BTCUSDT"
  type := "SELL"
  price := 100
  confidence := 0.6
  stop_loss := 102
  take_profit := 97
  atr := 1
  risk_reward := 1.5
  timestamp := 0
  status := "ACTIVE"
  created_at := 0

/-- An ACTIVE BUY signal whose protective levels have collapsed onto the
entry (the `tinyAtrStops` shape), so a price of 100 satisfies the stop-loss
and the take-profit condition simultaneously. -/
def sigCollapsed : Signal where
  signal_id := "BTCUSDT_0"
  symbol := "BTCUSDT"
  type := "BUY"
  price := 100
  confidence := 1.05
  stop_loss := 100
  take_profit := 100
  atr := 0
  risk_reward := 1.5
  timestamp := 0
  status := "ACTIVE"
  created_at := 0

/-- Stop-loss hit condition of `_check_signal_status`, as a predicate
(BUY: price at/below stop; otherwise the SELL reading: price at/above
stop). -/
@[reducible] def slHit (s : Signal) (current_price : ℚ) : Prop :=
  if s.type == "BUY" then current_price ≤ s.stop_loss
  else current_price ≥ s.stop_loss

/-- Take-profit hit condition of `_check_signal_status` (BUY: price at/above
target; otherwise at/below target). -/
@[reducible] def tpHit (s : Signal) (current_price : ℚ) : Prop :=
  if s.type == "BUY" then current_price ≥ s.take_profit
  else current_price ≤ s.take_profit

/-- As `sigCollapsed`: an ACTIVE BUY signal whose stop-loss and take-profit
coincide with the entry. -/
def sigCollapsedB : Signal where
  signal_id := "ETHUSDT_0"
  symbol := "ETHUSDT"
  type := "BUY"
  price := 100
  confidence := 1.05
  stop_loss := 100
  take_profit := 100
  atr := 0
  risk_reward := 1.5
  timestamp := 0
  status := "ACTIVE"
  created_at := 0

/-- The shipped configuration with a weight set summing to 2 (rejected by
`TradingParams.validate`). -/
def badParams : Params :=
  { shippedParams with WEIGHTS := [("ema_trend", 1), ("vwap", 1)] }

/-! ## Lemmas: rounding is monotone -/

theorem le_rnd (x : ℚ) : ⌊x⌋ ≤ rnd x := by
  unfold rnd; split_ifs <;> omega

theorem rnd_le (x : ℚ) : rnd x ≤ ⌊x⌋ + 1 := by
  unfold rnd; split_ifs <;> omega

theorem rnd_mono {x y : ℚ} (h : x ≤ y) : rnd x ≤ rnd y := by
  have hf : ⌊x⌋ ≤ ⌊y⌋ := Int.floor_le_floor h
  rcases lt_or_eq_of_le hf with hlt | heq
  · have h1 := rnd_le x
    have h2 := le_rnd y
    omega
  · have hfr : Int.fract x ≤ Int.fract y := by
      simp only [Int.fract]
      rw [heq]
      linarith
    unfold rnd
    rw [heq]
    split_ifs <;> first | omega | linarith

theorem roundTo_mono (p : ℕ) {x y : ℚ} (h : x ≤ y) :
    roundTo p x ≤ roundTo p y := by
  unfold roundTo
  have h10 : (0:ℚ) < 10 ^ p := by positivity
  refine (div_le_div_iff_of_pos_right h10).mpr ?_
  exact_mod_cast rnd_mono (mul_le_mul_of_nonneg_left h (le_of_lt h10))

theorem round2_mono {x y : ℚ} (h : x ≤ y) : round2 x ≤ round2 y :=
  roundTo_mono 2 h

/-! ## Lemmas: per-component score bounds at the shipped weights

Each component adds a nonnegative amount to exactly one accumulator, bounded
by its weight (plus the 0.05 cross bonus for the trend component). -/

theorem stage1_bounds (l pr : Snap) :
    0 ≤ (stage1 shippedParams l pr).1 ∧ (stage1 shippedParams l pr).1 ≤ 0.30 ∧
    0 ≤ (stage1 shippedParams l pr).2 ∧ (stage1 shippedParams l pr).2 ≤ 0.30 := by
  unfold stage1; split_ifs <;> with_unfolding_all decide

theorem stage2_bounds (l : Snap) :
    0 ≤ (stage2 shippedParams l).1 ∧ (stage2 shippedParams l).1 ≤ 0.20 ∧
    0 ≤ (stage2 shippedParams l).2 ∧ (stage2 shippedParams l).2 ≤ 0.20 := by
  unfold stage2; split_ifs <;> with_unfolding_all decide

theorem stage3_bounds (l : Snap) :
    0 ≤ (stage3 shippedParams l).1 ∧ (stage3 shippedParams l).1 ≤ 0.15 ∧
    0 ≤ (stage3 shippedParams l).2 ∧ (stage3 shippedParams l).2 ≤ 0.15 := by
  unfold stage3; split_ifs <;> with_unfolding_all decide

theorem stage4_bounds (l pr : Snap) :
    0 ≤ (stage4 shippedParams l pr).1 ∧ (stage4 shippedParams l pr).1 ≤ 0.15 ∧
    0 ≤ (stage4 shippedParams l pr).2 ∧ (stage4 shippedParams l pr).2 ≤ 0.15 := by
  unfold stage4; split_ifs <;> with_unfolding_all decide

theorem stage5_bounds (l : Snap) (b s : ℚ) :
    0 ≤ (stage5 shippedParams l b s).1 ∧ (stage5 shippedParams l b s).1 ≤ 0.15 ∧
    0 ≤ (stage5 shippedParams l b s).2 ∧ (stage5 shippedParams l b s).2 ≤ 0.15 := by
  unfold stage5; split_ifs <;> with_unfolding_all decide

theorem stage6_bounds (l : Snap) :
    0 ≤ (stage6 shippedParams l).1 ∧ (stage6 shippedParams l).1 ≤ 0.10 ∧
    0 ≤ (stage6 shippedParams l).2 ∧ (stage6 shippedParams l).2 ≤ 0.10 := by
  unfold stage6; split_ifs <;> with_unfolding_all decide

/-- The accumulated scores after components 1-4 lie in `[0, 0.80]`. -/
theorem scores4_bounds (l pr : Snap) :
    0 ≤ (scores4 shippedParams l pr).1 ∧ (scores4 shippedParams l pr).1 ≤ 0.80 ∧
    0 ≤ (scores4 shippedParams l pr).2 ∧ (scores4 shippedParams l pr).2 ≤ 0.80 := by
  obtain ⟨a1, b1, c1, d1⟩ := stage1_bounds l pr
  obtain ⟨a2, b2, c2, d2⟩ := stage2_bounds l
  obtain ⟨a3, b3, c3, d3⟩ := stage3_bounds l
  obtain ⟨a4, b4, c4, d4⟩ := stage4_bounds l pr
  unfold scores4
  dsimp only
  refine ⟨?_, ?_, ?_, ?_⟩ <;> linarith

/-- Both final scores lie in `[0, 1.05]` at the shipped weights: the six
caps 0.30 + 0.20 + 0.15 + 0.15 + 0.15 + 0.10 sum to 1.05. -/
theorem scores_bounds (l pr : Snap) :
    0 ≤ buyScore shippedParams l pr ∧ buyScore shippedParams l pr ≤ 1.05 ∧
    0 ≤ sellScore shippedParams l pr ∧ sellScore shippedParams l pr ≤ 1.05 := by
  obtain ⟨a4, b4, c4, d4⟩ := scores4_bounds l pr
  obtain ⟨a5, b5, c5, d5⟩ :=
    stage5_bounds l (scores4 shippedParams l pr).1 (scores4 shippedParams l pr).2
  obtain ⟨a6, b6, c6, d6⟩ := stage6_bounds l
  unfold buyScore sellScore
  refine ⟨?_, ?_, ?_, ?_⟩ <;> linarith

/-! ## Claims -/

/-- C1, counterexample.  On a 50-row window that passes the data-quality gate
and scores BUY with an ATR of 0.001, `analyze` emits a BUY signal whose
two-decimal-rounded protective levels have collapsed onto the entry price:
`stop_loss < entry_price < take_profit` fails as stated. -/
theorem stops_collapse_at_tiny_atr :
    (analyze (some tinyAtrDF)).1 = "BUY" ∧
    (analyze (some tinyAtrDF)).2.2 = some tinyAtrStops ∧
    ¬ (tinyAtrStops.stop_loss < tinyAtrStops.entry_price) ∧
    ¬ (tinyAtrStops.entry_price < tinyAtrStops.take_profit) := by
  with_unfolding_all decide

/-- C1, amended.  For every created Signal with nonnegative ATR at entry:
BUY ⇒ stop_loss ≤ entry_price ≤ take_profit and SELL ⇒ take_profit ≤
entry_price ≤ stop_loss.  The bracketing is non-strict: a zero ATR, or an ATR
small enough that the two-decimal rounding collapses the levels, makes the
levels coincide with the entry (the rounding is monotone, so the order can
degrade only to equality). -/
theorem stops_bracket_entry_nonstrict (l : Snap) (st sym : String) (conf ts : ℚ)
    (h : 0 ≤ l.inds.atr) :
    (st = "BUY" →
      (createSignal sym st conf (calculateStops shippedParams l st) ts).stop_loss ≤
        (createSignal sym st conf (calculateStops shippedParams l st) ts).price ∧
      (createSignal sym st conf (calculateStops shippedParams l st) ts).price ≤
        (createSignal sym st conf (calculateStops shippedParams l st) ts).take_profit) ∧
    (st ≠ "BUY" →
      (createSignal sym st conf (calculateStops shippedParams l st) ts).take_profit ≤
        (createSignal sym st conf (calculateStops shippedParams l st) ts).price ∧
      (createSignal sym st conf (calculateStops shippedParams l st) ts).price ≤
        (createSignal sym st conf (calculateStops shippedParams l st) ts).stop_loss) := by
  have hsl : shippedParams.STOP_LOSS_MULTIPLIER = 2 := by with_unfolding_all rfl
  have htp : shippedParams.TAKE_PROFIT_MULTIPLIER = 3 := by with_unfolding_all rfl
  constructor
  · intro hb
    have hb2 : (st == "BUY") = true := by simp [hb]
    simp only [createSignal, calculateStops, hb2, if_true, hsl, htp]
    constructor
    · exact round2_mono (by nlinarith)
    · exact round2_mono (by nlinarith)
  · intro hnb
    have hb2 : (st == "BUY") = false := by simp [hnb]
    simp only [createSignal, calculateStops, hb2, Bool.false_eq_true, if_false,
      hsl, htp]
    constructor
    · exact round2_mono (by nlinarith)
    · exact round2_mono (by nlinarith)

/-- C1 witness: a BUY signal created from a snapshot with ATR 1 has its
levels around the entry. -/
theorem stops_bracket_entry_nonstrict_witness :
    (0:ℚ) ≤ allBuyLatest.inds.atr ∧
    ((createSignal "BTCUSDT" "BUY" 1.05
        (calculateStops shippedParams allBuyLatest "BUY") 0).stop_loss ≤
      (createSignal "BTCUSDT" "BUY" 1.05
        (calculateStops shippedParams allBuyLatest "BUY") 0).price ∧
     (createSignal "BTCUSDT" "BUY" 1.05
        (calculateStops shippedParams allBuyLatest "BUY") 0).price ≤
      (createSignal "BTCUSDT" "BUY" 1.05
        (calculateStops shippedParams allBuyLatest "BUY") 0).take_profit) :=
  ⟨by with_unfolding_all decide,
   (stops_bracket_entry_nonstrict allBuyLatest "BUY" "BTCUSDT" 1.05 0
     (by with_unfolding_all decide)).1 rfl⟩

/-- C2, counterexample.  A snapshot on which all six components score for BUY
(including the golden-cross bonus) is emitted with confidence 1.05 > 1: the
reported confidence of an emitted signal is not bounded by 1. -/
theorem confidence_can_exceed_one :
    (generateSignal shippedParams allBuyLatest allBuyPrev).1 = "BUY" ∧
    (generateSignal shippedParams allBuyLatest allBuyPrev).2 = 1.05 ∧
    ¬ ((generateSignal shippedParams allBuyLatest allBuyPrev).2 ≤ 1) := by
  with_unfolding_all decide

/-- C2, amended.  Every emitted signal (direction ≠ HOLD) has confidence at
least the configured minimum and at most 1.05 (the weights sum to 1.0 and the
cross bonus adds 0.05; confidence can exceed 1, but never 1.05, and is never
below MIN_CONFIDENCE). -/
theorem emitted_confidence_bounds (l pr : Snap)
    (h : (generateSignal shippedParams l pr).1 ≠ "HOLD") :
    shippedParams.MIN_CONFIDENCE ≤ (generateSignal shippedParams l pr).2 ∧
    (generateSignal shippedParams l pr).2 ≤ 1.05 := by
  obtain ⟨b0, b1, s0, s1⟩ := scores_bounds l pr
  simp only [generateSignal] at h ⊢
  split_ifs at h ⊢ with hmin hbs hss
  · exact absurd rfl h
  · have hm := le_of_not_lt hmin
    rw [max_eq_left (le_of_lt hbs)] at hm
    exact ⟨hm, b1⟩
  · have hm := le_of_not_lt hmin
    rw [max_eq_right (le_of_lt hss)] at hm
    exact ⟨hm, s1⟩
  · exact absurd rfl h

/-- C2 witness: the all-BUY snapshot is emitted and its confidence sits in
`[MIN_CONFIDENCE, 1.05]`. -/
theorem emitted_confidence_bounds_witness :
    (generateSignal shippedParams allBuyLatest allBuyPrev).1 ≠ "HOLD" ∧
    (shippedParams.MIN_CONFIDENCE ≤
        (generateSignal shippedParams allBuyLatest allBuyPrev).2 ∧
      (generateSignal shippedParams allBuyLatest allBuyPrev).2 ≤ 1.05) :=
  ⟨by with_unfolding_all decide,
   emitted_confidence_bounds allBuyLatest allBuyPrev (by with_unfolding_all decide)⟩

/-- C4.  For every configuration and every window: an exact buy/sell score
tie decides HOLD (whatever the tied magnitude, above or below the minimum
confidence), BUY is returned only when the buy score strictly exceeds the
sell score, and SELL only when the sell score strictly exceeds the buy
score. -/
theorem tie_yields_hold (p : Params) (l pr : Snap) :
    (buyScore p l pr = sellScore p l pr → (generateSignal p l pr).1 = "HOLD") ∧
    ((generateSignal p l pr).1 = "BUY" → sellScore p l pr < buyScore p l pr) ∧
    ((generateSignal p l pr).1 = "SELL" → buyScore p l pr < sellScore p l pr) := by
  simp only [generateSignal]
  split_ifs with hmin hbs hss
  · exact ⟨fun _ => rfl, fun hb => by simp at hb, fun hs => by simp at hs⟩
  · exact ⟨fun he => by rw [he] at hbs; exact absurd hbs (lt_irrefl _),
           fun _ => hbs, fun hs => by simp at hs⟩
  · exact ⟨fun he => by rw [he] at hss; exact absurd hss (lt_irrefl _),
           fun hb => by simp at hb, fun _ => hss⟩
  · exact ⟨fun _ => rfl, fun hb => by simp at hb, fun hs => by simp at hs⟩

/-- C4 witness: a window scoring an exact 0.40/0.40 tie decides HOLD. -/
theorem tie_yields_hold_witness :
    buyScore shippedParams tieLatest tiePrev =
      sellScore shippedParams tieLatest tiePrev ∧
    (generateSignal shippedParams tieLatest tiePrev).1 = "HOLD" :=
  ⟨by with_unfolding_all decide,
   (tie_yields_hold shippedParams tieLatest tiePrev).1 (by with_unfolding_all decide)⟩

set_option maxRecDepth 200000 in
/-- C3, counterexample.  A 50-candle OHLCV window without indicator columns —
the shape the production pipeline always passes — fails the data-quality
gate, yet `analyze` does not return HOLD: it recomputes the indicators and
emits BUY. -/
theorem gate_failure_still_emits :
    50 ≤ rawDF.candles.length ∧
    validateDataQuality rawDF = false ∧
    (analyze (some rawDF)).1 = "BUY" ∧
    (analyze (some rawDF)).1 ≠ "HOLD" := by
  with_unfolding_all decide

/-- C3, amended.  When the data-quality gate fails on a window of at least 50
candles, `analyze` does not treat the cycle as no-signal: it recomputes all
indicators from the OHLCV columns with `calculate_all` and returns HOLD only
if that recomputation fails (returns nothing); otherwise it scores the
recomputed window and can emit a signal. -/
theorem gate_failure_recomputes (df : DF) (h50 : 50 ≤ df.candles.length)
    (hg : validateDataQuality df = false) :
    analyze (some df) =
      (match calculateAll shippedParams df.candles with
       | none => ("HOLD", 0.0, none)
       | some inds => scoreAndStops shippedParams df.candles inds) := by
  have hlt : ¬ df.candles.length < 50 := by omega
  simp only [analyze, hlt, if_false, hg, Bool.false_eq_true]

/-- C3 witness: the raw production-shaped window takes the recomputation
path. -/
theorem gate_failure_recomputes_witness :
    50 ≤ rawDF.candles.length ∧ validateDataQuality rawDF = false ∧
    analyze (some rawDF) =
      (match calculateAll shippedParams rawDF.candles with
       | none => ("HOLD", 0.0, none)
       | some inds => scoreAndStops shippedParams rawDF.candles inds) :=
  ⟨by with_unfolding_all decide, by with_unfolding_all decide,
   gate_failure_recomputes rawDF (by with_unfolding_all decide)
     (by with_unfolding_all decide)⟩

/-- C8.  On a missing window, or any window of fewer than 50 candles,
`analyze` immediately returns direction HOLD with confidence 0.0 and no
protective levels — a total function, so no exception, and the scoring tail
is never entered. -/
theorem insufficient_candles_hold :
    analyze none = ("HOLD", 0.0, none) ∧
    ∀ df : DF, df.candles.length < 50 → analyze (some df) = ("HOLD", 0.0, none) := by
  constructor
  · rfl
  · intro df h
    simp only [analyze, h, if_true]

/-- C8 witness: the empty window is answered with HOLD/0.0/no stops. -/
theorem insufficient_candles_hold_witness :
    (⟨[], none⟩ : DF).candles.length < 50 ∧
    analyze (some ⟨[], none⟩) = ("HOLD", 0.0, none) :=
  ⟨by decide, insufficient_candles_hold.2 ⟨[], none⟩ (by decide)⟩

/-- C9.  `TradingParams.validate` rejects (raises for) every weight set whose
sum differs from 1.0 by more than 0.01 — whatever the other parameters are —
and accepts the shipped configuration, whose six indicator weights sum to
exactly 1. -/
theorem weights_validation :
    (∀ p : Params, |weightsTotal p - 1.0| > 0.01 →
      p.validate = Except.error "weights must sum to 1.0") ∧
    weightsTotal shippedParams = 1 ∧
    shippedParams.validate = Except.ok true := by
  refine ⟨?_, ?_, ?_⟩
  · intro p h
    unfold Params.validate
    rw [if_pos h]
  · with_unfolding_all decide
  · with_unfolding_all rfl

/-- C9 witness: a weight set summing to 2 is rejected. -/
theorem weights_validation_witness :
    |weightsTotal badParams - 1.0| > 0.01 ∧
    badParams.validate = Except.error "weights must sum to 1.0" :=
  ⟨by with_unfolding_all decide,
   weights_validation.1 badParams (by with_unfolding_all decide)⟩

/-- Looking a key up right after `setKey` stored it returns the stored
time. -/
theorem lookup_setKey (k : String) (v : ℚ) (st : List (String × ℚ)) :
    (setKey k v st).lookup k = some v := by
  simp [setKey, List.lookup]

/-- C5.  Cooldown gate, keyed on (symbol, direction) through the
`symbol_direction` key: the first call for a key returns true and records the
time; a subsequent call returns true exactly when the elapsed time since the
last passing call strictly exceeds the cooldown window, resetting the timer
on pass and leaving it untouched on fail; so two calls within the window give
(true, false) and a third call after the window elapses gives true again —
at most one emission per key per cooldown window. -/
theorem cooldown_gate_spec (p : Params) (st : List (String × ℚ))
    (sym t : String) (cd : Option ℚ) :
    (∀ now, st.lookup (sym ++ "_" ++ t) = none →
      validateSignal p st sym t now cd =
        (true, setKey (sym ++ "_" ++ t) now st)) ∧
    (∀ now last, st.lookup (sym ++ "_" ++ t) = some last →
      validateSignal p st sym t now cd =
        (if now - last > cd.getD p.SIGNAL_COOLDOWN_MINUTES * 60
         then (true, setKey (sym ++ "_" ++ t) now st)
         else (false, st))) ∧
    (∀ t0 t1 t2, st.lookup (sym ++ "_" ++ t) = none →
      t1 - t0 ≤ cd.getD p.SIGNAL_COOLDOWN_MINUTES * 60 →
      t2 - t0 > cd.getD p.SIGNAL_COOLDOWN_MINUTES * 60 →
      (validateSignal p st sym t t0 cd).1 = true ∧
      (validateSignal p (validateSignal p st sym t t0 cd).2 sym t t1 cd).1
        = false ∧
      (validateSignal p
        (validateSignal p (validateSignal p st sym t t0 cd).2 sym t t1 cd).2
        sym t t2 cd).1 = true) := by
  refine ⟨?_, ?_, ?_⟩
  · intro now h
    simp only [validateSignal]
    rw [h]
  · intro now last h
    simp only [validateSignal]
    rw [h]
  · intro t0 t1 t2 h0 hin hout
    have r0 : validateSignal p st sym t t0 cd =
        (true, setKey (sym ++ "_" ++ t) t0 st) := by
      simp only [validateSignal]
      rw [h0]
    have r1 : validateSignal p (setKey (sym ++ "_" ++ t) t0 st) sym t t1 cd =
        (false, setKey (sym ++ "_" ++ t) t0 st) := by
      simp only [validateSignal, lookup_setKey]
      exact if_neg (not_lt.mpr hin)
    have r2 : validateSignal p (setKey (sym ++ "_" ++ t) t0 st) sym t t2 cd =
        (true, setKey (sym ++ "_" ++ t) t2 (setKey (sym ++ "_" ++ t) t0 st)) := by
      simp only [validateSignal, lookup_setKey]
      exact if_pos hout
    rw [r0]
    refine ⟨rfl, ?_, ?_⟩
    · rw [r1]
    · rw [r1, r2]

/-- C5 witness: with the shipped 5-minute cooldown and a fresh state, calls
for BTCUSDT/BUY at 0s, 100s and 301s yield true, false, true. -/
theorem cooldown_gate_spec_witness :
    ([] : List (String × ℚ)).lookup ("BTCUSDT" ++ "_" ++ "BUY") = none ∧
    (validateSignal shippedParams [] "BTCUSDT" "BUY" 0 none).1 = true ∧
    (validateSignal shippedParams
      (validateSignal shippedParams [] "BTCUSDT" "BUY" 0 none).2
      "BTCUSDT" "BUY" 100 none).1 = false ∧
    (validateSignal shippedParams
      (validateSignal shippedParams
        (validateSignal shippedParams [] "BTCUSDT" "BUY" 0 none).2
        "BTCUSDT" "BUY" 100 none).2
      "BTCUSDT" "BUY" 301 none).1 = true := by
  have h := (cooldown_gate_spec shippedParams [] "BTCUSDT" "BUY" none).2.2
    0 100 301 rfl (by with_unfolding_all decide) (by with_unfolding_all decide)
  exact ⟨rfl, h.1, h.2.1, h.2.2⟩

/-- C6.  `_close_signal` computes `pnl_percent` as
`round((close − entry)/entry × 100, 2)` for BUY and
`round((entry − close)/entry × 100, 2)` otherwise; in particular
entry 100 → close 105 on BUY gives +5.00, entry 100 → close 95 on SELL gives
+5.00, and entry 100 → close 95 on BUY gives −5.00. -/
theorem pnl_percent_formula :
    (∀ (s : Signal) (cp now : ℚ) (st : String), s.type = "BUY" →
      (closeSignal s cp st now).pnl_percent =
        some (round2 ((cp - s.price) / s.price * 100))) ∧
    (∀ (s : Signal) (cp now : ℚ) (st : String), s.type ≠ "BUY" →
      (closeSignal s cp st now).pnl_percent =
        some (round2 ((s.price - cp) / s.price * 100))) ∧
    (closeSignal sigBuy100 105 "TAKE_PROFIT" 60).pnl_percent = some 5 ∧
    (closeSignal sigSell100 95 "TAKE_PROFIT" 60).pnl_percent = some 5 ∧
    (closeSignal sigBuy100 95 "STOP_LOSS" 60).pnl_percent = some (-5) := by
  refine ⟨?_, ?_, ?_, ?_, ?_⟩
  · intro s cp now st h
    simp [closeSignal, h]
  · intro s cp now st h
    have hb : (s.type == "BUY") = false := by simp [h]
    simp [closeSignal, hb]
  · with_unfolding_all decide
  · with_unfolding_all decide
  · with_unfolding_all decide

/-- C6 witness: the BUY formula applied to the entry-100/close-105 signal. -/
theorem pnl_percent_formula_witness :
    sigBuy100.type = "BUY" ∧
    (closeSignal sigBuy100 105 "TAKE_PROFIT" 60).pnl_percent =
      some (round2 ((105 - sigBuy100.price) / sigBuy100.price * 100)) :=
  ⟨rfl, pnl_percent_formula.1 sigBuy100 105 60 "TAKE_PROFIT" rfl⟩

/-- C7, counterexample.  A monitored ACTIVE BUY signal whose levels coincide
(stop = target = 100) at a current price of 100 satisfies the take-profit
condition, yet is closed as STOP_LOSS — "closed as TAKE_PROFIT exactly when
current ≥ take_profit" fails in the overlap. -/
theorem stop_precedence_breaks_tp_iff :
    sigCollapsed.status = "ACTIVE" ∧
    tpHit sigCollapsed 100 ∧
    monitorOne shippedParams sigCollapsed 100 60 =
      some (closeSignal sigCollapsed 100 "STOP_LOSS" 60) ∧
    (closeSignal sigCollapsed 100 "STOP_LOSS" 60).status = "STOP_LOSS" ∧
    checkSignalStatus sigCollapsed 100 ≠ "TAKE_PROFIT" := by
  with_unfolding_all decide

/-- C7, amended.  In a monitoring pass with the price available, an ACTIVE
signal is closed as STOP_LOSS exactly when the stop-loss condition holds
(BUY: current ≤ stop; SELL: current ≥ stop); as TAKE_PROFIT exactly when the
take-profit condition holds (BUY: current ≥ target; SELL: current ≤ target)
and the stop-loss condition does not (stop-loss is checked first); otherwise
as EXPIRED exactly when strictly more than the configured maximum lifetime
has elapsed since creation; in all remaining cases it is left unclosed and
stays in the open set, while every closed signal leaves it. -/
theorem check_sl {s : Signal} {cp : ℚ} (h : slHit s cp) :
    checkSignalStatus s cp = "STOP_LOSS" := by
  unfold slHit at h
  unfold checkSignalStatus
  split_ifs at h ⊢ <;> simp_all

theorem check_tp {s : Signal} {cp : ℚ} (hn : ¬ slHit s cp) (h : tpHit s cp) :
    checkSignalStatus s cp = "TAKE_PROFIT" := by
  unfold slHit at hn
  unfold tpHit at h
  unfold checkSignalStatus
  split_ifs at hn h ⊢ <;> simp_all

theorem check_active {s : Signal} {cp : ℚ} (hn : ¬ slHit s cp)
    (ht : ¬ tpHit s cp) : checkSignalStatus s cp = "ACTIVE" := by
  unfold slHit at hn
  unfold tpHit at ht
  unfold checkSignalStatus
  split_ifs at hn ht ⊢ <;> simp_all

theorem monitor_closure_rules (p : Params) (s : Signal) (cp now : ℚ) :
    (slHit s cp →
      monitorOne p s cp now = some (closeSignal s cp "STOP_LOSS" now)) ∧
    (¬ slHit s cp → tpHit s cp →
      monitorOne p s cp now = some (closeSignal s cp "TAKE_PROFIT" now)) ∧
    (¬ slHit s cp → ¬ tpHit s cp →
      (now - s.created_at) / 3600 > p.MAX_SIGNAL_LIFETIME_HOURS →
      monitorOne p s cp now = some (closeSignal s cp "EXPIRED" now)) ∧
    (¬ slHit s cp → ¬ tpHit s cp →
      ¬ ((now - s.created_at) / 3600 > p.MAX_SIGNAL_LIFETIME_HOURS) →
      monitorOne p s cp now = none) ∧
    (∀ sigs price, s ∈ sigs → price s.symbol = some cp →
      monitorOne p s cp now = none → s ∈ (monitorPass p sigs price now).2) ∧
    (∀ sigs price (c : Signal), s ∈ sigs → price s.symbol = some cp →
      monitorOne p s cp now = some c → c ∈ (monitorPass p sigs price now).1) := by
  refine ⟨?_, ?_, ?_, ?_, ?_, ?_⟩
  · intro h
    simp [monitorOne, check_sl h]
  · intro hns h
    simp [monitorOne, check_tp hns h]
  · intro hns hnt hexp
    simp [monitorOne, check_active hns hnt, isExpired, hexp]
  · intro hns hnt hnexp
    simp [monitorOne, check_active hns hnt, isExpired, hnexp]
  · intro sigs price hmem hp hnone
    unfold monitorPass
    refine List.mem_filter.mpr ⟨hmem, ?_⟩
    simp [hp, hnone]
  · intro sigs price c hmem hp hsome
    unfold monitorPass
    exact List.mem_filterMap.mpr ⟨s, hmem, by simp [hp, hsome]⟩

/-- C7 witness: a BUY signal at 97 with stop 98 hits the stop-loss rule and
is closed as STOP_LOSS. -/
theorem monitor_closure_rules_witness :
    slHit sigBuy100 97 ∧
    monitorOne shippedParams sigBuy100 97 60 =
      some (closeSignal sigBuy100 97 "STOP_LOSS" 60) :=
  ⟨by with_unfolding_all decide,
   (monitor_closure_rules shippedParams sigBuy100 97 60).1
     (by with_unfolding_all decide)⟩

/-- C10.  When a current price satisfies the stop-loss and the take-profit
condition simultaneously (coinciding or crossed levels), the status check
returns STOP_LOSS for BUY and for SELL signals alike: the stop-loss
comparison is evaluated first. -/
theorem stop_loss_precedence (s : Signal) (cp : ℚ) :
    (s.type = "BUY" → cp ≤ s.stop_loss → s.take_profit ≤ cp →
      checkSignalStatus s cp = "STOP_LOSS") ∧
    (s.type = "SELL" → s.stop_loss ≤ cp → cp ≤ s.take_profit →
      checkSignalStatus s cp = "STOP_LOSS") := by
  constructor
  · intro h h1 _
    have hb : (s.type == "BUY") = true := by simp [h]
    simp [checkSignalStatus, hb, h1]
  · intro h h1 _
    have hb : (s.type == "BUY") = false := by simp [h]
    simp [checkSignalStatus, hb, h1]

/-- C10 witness: a BUY signal with stop = target = entry = 100 at price 100
closes by the stop-loss rule. -/
theorem stop_loss_precedence_witness :
    sigCollapsedB.type = "BUY" ∧ (100:ℚ) ≤ sigCollapsedB.stop_loss ∧
    sigCollapsedB.take_profit ≤ 100 ∧
    checkSignalStatus sigCollapsedB 100 = "STOP_LOSS" :=
  ⟨rfl, by with_unfolding_all decide, by with_unfolding_all decide,
   (stop_loss_precedence sigCollapsedB 100).1 rfl
     (by with_unfolding_all decide) (by with_unfolding_all decide)⟩

end TradingBot
